import Mathlib

/-!
Verification of the Session & Abuse-Control Core of the to_doable repository.

The definitions below are a shallow embedding of the JavaScript source:
  - src/to-doable-server/src/config/index.js        (configuration constants)
  - src/to-doable-server/src/middleware/rate-limit.js
  - src/to-doable-server/src/middleware/idempotency.js
  - src/to-doable-server/src/utils/jwt.js
  - src/to-doable-server/src/utils/crypto.js
  - src/to-doable-server/src/routes/profile.js      (login / refresh handlers)

Times are modelled as integers (seconds, or milliseconds where the source
uses Date.now()); SQL rows become Lean structures; the keyed durable store
becomes a function from primary key to an optional row; fallible code
returns Option.  Cryptographic primitives (HMAC-SHA256, SHA-256) and the
JSON + base64url serialization are modelled by executable deterministic
stand-ins that keep the properties the code relies on: the serialization
is injective with a computable left inverse, signatures are deterministic
functions of (data, secret), and the wire token is three dot-free segments
joined by dots.
-/

namespace ToDoable

/-! ## Configuration (src/config/index.js) -/

/-- rate_limit_config.registration.block_escalation: 1h, 1day, 1week in seconds. -/
def registration_block_escalation : List Nat := [3600, 86400, 604800]

/-- rate_limit_config.login.user.block_escalation: 5m, 15m, 30m in seconds. -/
def login_user_block_escalation : List Nat := [300, 900, 1800]

/-- rate_limit_config.registration.max_per_day. -/
def registration_max_per_day : Nat := 20

/-- rate_limit_config.login.ip.bucket_size (also used as the refill rate
multiplier by the SQL in rate_limit_login_ip). -/
def login_ip_bucket_size : ℚ := 5

/-- rate_limit_config.login.user.max_consecutive_failures. -/
def login_user_max_consecutive_failures : Nat := 5

/-! ## Shared escalation helper (src/middleware/rate-limit.js lines 71-76) -/

/-- get_block_duration(block_count, escalation): none (permanent) when the
ladder index is out of range, otherwise the ladder entry at block_count. -/
def get_block_duration (block_count : Nat) (escalation : List Nat) : Option Nat :=
  if h : escalation.length ≤ block_count then
    none
  else
    some (escalation.get ⟨block_count, Nat.lt_of_not_le h⟩)

/-! ## Token bucket (src/middleware/rate-limit.js rate_limit_login_ip, lines 195-255)

The upsert in rate_limit_login_ip either inserts a fresh row with
tokens = bucket_size, or refills: tokens := LEAST(bucket_size,
tokens + (elapsed_seconds / 60) * bucket_size).  A successful attempt
then consumes one token. -/

/-- Insert branch of the upsert: VALUES ($1, $2, NOW()) with $2 = bucket_size. -/
def bucket_initial_tokens : ℚ := login_ip_bucket_size

/-- Refill branch of the upsert (DO UPDATE SET tokens = LEAST(...)). -/
def bucket_refill (tokens elapsed_seconds : ℚ) : ℚ :=
  min login_ip_bucket_size (tokens + elapsed_seconds / 60 * login_ip_bucket_size)

/-- Token consumption: UPDATE ... SET tokens = tokens - 1. -/
def bucket_consume (tokens : ℚ) : ℚ := tokens - 1

/-! ## Counter + decay (src/middleware/rate-limit.js record_login_failure, lines 274-328) -/

/-- One row of rate_limit_login_user (schema.sql). -/
structure LoginUserRecord where
  consecutive_failures : Nat
  last_failure_at : Option Int
  blocked_until : Option Int
  block_count : Nat
deriving DecidableEq, Repr

/-- INTERVAL of the decay window in the upsert of record_login_failure. -/
def decay_window_seconds : Int := 30 * 60

/-- The SQL condition last_failure_at < NOW() - INTERVAL 30 minutes.
A NULL last_failure_at compares as not-true, taking the ELSE branch. -/
def decay_elapsed (last : Option Int) (now : Int) : Bool :=
  match last with
  | some t => decide (t < now - decay_window_seconds)
  | none => false

/-- The upsert of record_login_failure: a fresh row starts at 1 failure;
an existing row resets to 1 when the decay window elapsed, otherwise
increments; last_failure_at becomes NOW() in every branch. -/
def record_failure_upsert (existing : Option LoginUserRecord) (now : Int) : LoginUserRecord :=
  match existing with
  | none =>
      { consecutive_failures := 1, last_failure_at := some now,
        blocked_until := none, block_count := 0 }
  | some r =>
      { r with
        consecutive_failures :=
          if decay_elapsed r.last_failure_at now then 1 else r.consecutive_failures + 1,
        last_failure_at := some now }

/-- Outcome reported by record_login_failure to the login handler. -/
inductive FailureOutcome where
  | not_blocked
  | blocked_temporary (duration : Nat)
  | blocked_permanent
deriving DecidableEq, Repr

/-- record_login_failure: run the upsert, then if the threshold is reached
apply the block drawn from the ladder at the current block_count
(consecutive_failures is cleared on a temporary block). -/
def record_login_failure (existing : Option LoginUserRecord) (now : Int) :
    LoginUserRecord × FailureOutcome :=
  let rec0 := record_failure_upsert existing now
  if login_user_max_consecutive_failures ≤ rec0.consecutive_failures then
    match get_block_duration rec0.block_count login_user_block_escalation with
    | none =>
        ({ rec0 with blocked_until := none, block_count := rec0.block_count + 1 },
         FailureOutcome.blocked_permanent)
    | some d =>
        ({ rec0 with
           blocked_until := some (now + (d : Int)),
           block_count := rec0.block_count + 1,
           consecutive_failures := 0 },
         FailureOutcome.blocked_temporary d)
  else
    (rec0, FailureOutcome.not_blocked)

/-! ## JWT model (src/utils/jwt.js)

JSON.stringify + base64url is modelled as an executable injective coding
of the payload structure over List Char with a computable left inverse,
and HMAC-SHA256 as a deterministic digest of (secret, data); both keep
the properties verify_jwt relies on: the wire token is three dot-free
segments joined by dots, serialization round-trips, and a signature is a
function of exactly the signed data and the secret. -/

/-- A JavaScript value arriving at verify_jwt: null, undefined, a string,
or any non-string value. -/
inductive JsValue where
  | jsNull
  | jsUndefined
  | str (s : List Char)
  | nonString
deriving DecidableEq, Repr

/-- The claims object carried by a token.  Optional fields model JSON
properties that may be absent (exp included, for tokens not produced by
create_jwt). -/
structure JwtPayload where
  sub : String
  username : Option String
  is_admin : Option Bool
  is_verified : Option Bool
  type : String
  is_impersonation : Option Bool
  admin_id : Option String
  session_only : Option Bool
  iat : Option Nat
  exp : Option Nat
deriving DecidableEq, Repr

/-- Unary coding of a natural number terminated by a marker; dot-free. -/
def encNat (n : Nat) : List Char := List.replicate n '1' ++ ['g']

/-- Left inverse of encNat, consuming the coded prefix. -/
def decNat : List Char → Option (Nat × List Char)
  | [] => none
  | c :: rest =>
    if c = 'g' then some (0, rest)
    else if c = '1' then
      match decNat rest with
      | some (n, r) => some (n + 1, r)
      | none => none
    else none

/-- Coding of a character list: each codepoint in turn, then a terminator. -/
def encChars : List Char → List Char
  | [] => ['e']
  | c :: cs => encNat c.toNat ++ encChars cs

/-- Fuelled left inverse of encChars. -/
def decCharsF : Nat → List Char → Option (List Char × List Char)
  | 0, _ => none
  | _, [] => none
  | fuel + 1, c :: rest =>
    if c = 'e' then some ([], rest)
    else
      match decNat (c :: rest) with
      | some (n, r) =>
        match decCharsF fuel r with
        | some (cs, r2) => some (Char.ofNat n :: cs, r2)
        | none => none
      | none => none

/-- Left inverse of encChars (the input length bounds the element count). -/
def decChars (l : List Char) : Option (List Char × List Char) :=
  decCharsF (l.length + 1) l

/-- Coding of a boolean JSON value. -/
def encBool : Bool → List Char
  | true => ['t']
  | false => ['f']

/-- Left inverse of encBool. -/
def decBool : List Char → Option (Bool × List Char)
  | [] => none
  | c :: rest =>
    if c = 't' then some (true, rest)
    else if c = 'f' then some (false, rest)
    else none

/-- Coding of an optional field: a present/absent tag, then the value. -/
def encOptWith {α : Type} (enc : α → List Char) : Option α → List Char
  | none => ['n']
  | some a => 's' :: enc a

/-- Left inverse of encOptWith. -/
def decOptWith {α : Type} (dec : List Char → Option (α × List Char)) :
    List Char → Option (Option α × List Char)
  | [] => none
  | c :: rest =>
    if c = 'n' then some (none, rest)
    else if c = 's' then
      match dec rest with
      | some (a, r) => some (some a, r)
      | none => none
    else none

/-- Coding of a string field. -/
def encStr (s : String) : List Char := encChars s.data

/-- Left inverse of encStr. -/
def decStr (l : List Char) : Option (String × List Char) :=
  match decChars l with
  | some (cs, r) => some (String.mk cs, r)
  | none => none

/-- JSON.stringify of the payload followed by base64url: the fields in a
fixed order. -/
def encPayload (p : JwtPayload) : List Char :=
  encStr p.sub ++ encOptWith encStr p.username ++ encOptWith encBool p.is_admin ++
    encOptWith encBool p.is_verified ++ encStr p.type ++
    encOptWith encBool p.is_impersonation ++ encOptWith encStr p.admin_id ++
    encOptWith encBool p.session_only ++ encOptWith encNat p.iat ++
    encOptWith encNat p.exp

/-- base64url decode followed by JSON.parse; none models a thrown parse
error (caught by verify_jwt's try/catch). -/
def decPayload (l : List Char) : Option JwtPayload := do
  let (sub, r1) ← decStr l
  let (username, r2) ← decOptWith decStr r1
  let (is_admin, r3) ← decOptWith decBool r2
  let (is_verified, r4) ← decOptWith decBool r3
  let (type, r5) ← decStr r4
  let (is_impersonation, r6) ← decOptWith decBool r5
  let (admin_id, r7) ← decOptWith decStr r6
  let (session_only, r8) ← decOptWith decBool r7
  let (iat, r9) ← decOptWith decNat r8
  let (exp, r10) ← decOptWith decNat r9
  match r10 with
  | [] => some { sub, username, is_admin, is_verified, type,
                 is_impersonation, admin_id, session_only, iat, exp }
  | _ => none

/-- jwt_config.secret (the dev default of src/config/index.js). -/
def jwt_config_secret : String := "dev-secret-change-in-production"

/-- Deterministic digest standing in for HMAC-SHA256. -/
def charsHash (l : List Char) : Nat :=
  l.foldl (fun a c => (a * 131 + c.toNat) % 251) 7

/-- create_signature(data, secret): base64url-encoded digest of the keyed
data; dot-free. -/
def create_signature (data : List Char) (secret : String) : List Char :=
  encNat (charsHash (secret.data ++ data))

/-- verify_signature(data, signature, secret): recompute the signature and
compare, rejecting on a length mismatch first (the timing-safe equality of
equal-length buffers is equality). -/
def verify_signature (data signature : List Char) (secret : String) : Bool :=
  let expected := create_signature data secret
  if signature.length ≠ expected.length then false
  else signature == expected

/-- The constant encoded header base64url(JSON.stringify({alg, typ})). -/
def jwt_header_chars : List Char := ['h', 'd', 'r']

/-- A duration string such as 15m / 24h / 7d, as value and unit. -/
structure DurationStr where
  value : Nat
  unit : Char
deriving DecidableEq, Repr

/-- parse_duration: minutes, hours or days to milliseconds; none models
the error thrown on an unknown unit. -/
def parse_duration (d : DurationStr) : Option Nat :=
  if d.unit = 'm' then some (d.value * 60 * 1000)
  else if d.unit = 'h' then some (d.value * 60 * 60 * 1000)
  else if d.unit = 'd' then some (d.value * 24 * 60 * 60 * 1000)
  else none

/-- jwt_config.access_expiry default 15m. -/
def jwt_access_expiry : DurationStr := ⟨15, 'm'⟩

/-- jwt_config.refresh_expiry default 7d. -/
def jwt_refresh_expiry : DurationStr := ⟨7, 'd'⟩

/-- create_jwt(payload, options): stamp iat and exp from Date.now() and
the parsed expiry, encode header and payload, sign the dot-joined pair,
and append the signature as a third dot-separated segment. -/
def create_jwt (payload : JwtPayload) (expiry : DurationStr) (now_ms : Nat) :
    Option (List Char) :=
  match parse_duration expiry with
  | none => none
  | some ms =>
    let full := { payload with
                  iat := some (now_ms / 1000),
                  exp := some ((now_ms + ms) / 1000) }
    let signature_input := jwt_header_chars ++ '.' :: encPayload full
    some (signature_input ++ '.' :: create_signature signature_input jwt_config_secret)

/-- The identity claims create_access_token reads from the user row. -/
structure UserIdentity where
  id : String
  username : String
  is_admin : Bool
  is_verified : Bool
deriving DecidableEq, Repr

/-- Options of create_access_token. -/
structure AccessTokenOptions where
  is_impersonation : Bool := false
  admin_id : Option String := none
deriving DecidableEq, Repr

/-- The payload built by create_access_token before create_jwt stamps
iat/exp: identity claims, type access, impersonation fields if present. -/
def access_payload (user : UserIdentity) (options : AccessTokenOptions) : JwtPayload :=
  { sub := user.id, username := some user.username,
    is_admin := some user.is_admin, is_verified := some user.is_verified,
    type := "access",
    is_impersonation := if options.is_impersonation then some true else none,
    admin_id := if options.is_impersonation then options.admin_id else none,
    session_only := none, iat := none, exp := none }

/-- create_access_token(user, options). -/
def create_access_token (user : UserIdentity) (options : AccessTokenOptions)
    (now_ms : Nat) : Option (List Char) :=
  create_jwt (access_payload user options) jwt_access_expiry now_ms

/-- A correctly signed token around an arbitrary payload: the exact wire
shape create_jwt emits, without forcing iat/exp into the payload. -/
def signed_token (p : JwtPayload) : List Char :=
  let signature_input := jwt_header_chars ++ '.' :: encPayload p
  signature_input ++ '.' :: create_signature signature_input jwt_config_secret

/-- token.split(".") from verify_jwt. -/
def splitDots : List Char → List (List Char)
  | [] => [[]]
  | c :: rest =>
    if c = '.' then [] :: splitDots rest
    else
      match splitDots rest with
      | s :: ss => (c :: s) :: ss
      | [] => [[c]]

/-- The tagged result verify_jwt always returns. -/
inductive VerifyResult where
  | valid (payload : JwtPayload)
  | invalid (error : String)
deriving DecidableEq, Repr

/-- verify_jwt(token) of src/utils/jwt.js lines 138-170: reject falsy or
non-string input, then a wrong segment count, then a bad signature, then
an undecodable payload (the caught JSON.parse throw), then a present,
truthy exp in the past; otherwise return the decoded payload. -/
def verify_jwt (token : JsValue) (now_ms : Nat) : VerifyResult :=
  match token with
  | JsValue.str s =>
    if s = [] then VerifyResult.invalid "Token is required"
    else
      match splitDots s with
      | [encoded_header, encoded_payload, signature] =>
        let signature_input := encoded_header ++ '.' :: encoded_payload
        if verify_signature signature_input signature jwt_config_secret then
          match decPayload encoded_payload with
          | some payload =>
            match payload.exp with
            | some e =>
              if e ≠ 0 ∧ e < now_ms / 1000 then VerifyResult.invalid "Token expired"
              else VerifyResult.valid payload
            | none => VerifyResult.valid payload
          | none => VerifyResult.invalid "Invalid token"
        else VerifyResult.invalid "Invalid signature"
      | _ => VerifyResult.invalid "Invalid token format"
  | _ => VerifyResult.invalid "Token is required"

/-- A concrete signed-payload with only an exp claim, in the past at any
time from 2 seconds on. -/
def expired_payload : JwtPayload :=
  { sub := "", username := none, is_admin := none, is_verified := none,
    type := "", is_impersonation := none, admin_id := none,
    session_only := none, iat := none, exp := some 1 }

/-- A concrete payload carrying no exp claim. -/
def no_exp_payload : JwtPayload :=
  { sub := "", username := none, is_admin := none, is_verified := none,
    type := "", is_impersonation := none, admin_id := none,
    session_only := none, iat := none, exp := none }

/-! ## Idempotency middleware (src/middleware/idempotency.js, schema.sql)

The idempotency_keys table has key alone as its PRIMARY KEY, so the
durable store is a function from key to an optional row.  Times are in
seconds. -/

/-- One row of idempotency_keys. -/
structure IdemRecord where
  user_id : Option String
  endpoint : String
  response_status : Nat
  response_body : String
  expires_at : Int
deriving DecidableEq, Repr

/-- The idempotency_keys table, keyed by its primary key. -/
def IdemStore : Type := String → Option IdemRecord

/-- Seconds in the 24-hour INTERVAL of the middleware. -/
def idem_ttl_seconds : Int := 86400

/-- Character class of validate_idempotency_key (src validation utils):
URL-safe means [a-zA-Z0-9_-]. -/
def url_safe_char (c : Char) : Bool :=
  c.isAlpha || c.isDigit || c = '_' || c = '-'

/-- JavaScript String.prototype.trim: strip whitespace from both ends. -/
def str_trim (s : String) : String :=
  String.mk (((s.data.dropWhile Char.isWhitespace).reverse.dropWhile
    Char.isWhitespace).reverse)

/-- validate_idempotency_key(key): trim, then require 8..255 URL-safe
characters; returns the trimmed value. -/
def validate_idempotency_key (key : String) : Option String :=
  let trimmed := str_trim key
  if 8 ≤ trimmed.length ∧ trimmed.length ≤ 255 ∧ trimmed.data.all url_safe_char then
    some trimmed
  else
    none

/-- The SELECT of the middleware (lines 48-54): an unexpired row for this
key whose stored user_id and endpoint match the request's tuple. -/
def idem_select (store : IdemStore) (key : String) (user_id : Option String)
    (endpoint : String) (now : Int) : Option (Nat × String) :=
  match store key with
  | some r =>
      if r.user_id = user_id ∧ r.endpoint = endpoint ∧ now < r.expires_at then
        some (r.response_status, r.response_body)
      else
        none
  | none => none

/-- The INSERT ... ON CONFLICT (key) DO UPDATE of the middleware (lines
74-82): a fresh key inserts the whole row; a conflicting key keeps the
stored user_id and endpoint and overwrites only status, body and expiry. -/
def idem_upsert (store : IdemStore) (key : String) (user_id : Option String)
    (endpoint : String) (status : Nat) (body : String) (now : Int) : IdemStore :=
  fun k =>
    if k = key then
      match store key with
      | none =>
          some { user_id := user_id, endpoint := endpoint,
                 response_status := status, response_body := body,
                 expires_at := now + idem_ttl_seconds }
      | some old =>
          some { old with
                 response_status := status, response_body := body,
                 expires_at := now + idem_ttl_seconds }
    else store k

/-- The response the middleware produces for one request, with the
Idempotent-Replayed marker. -/
structure IdemResponse where
  status : Nat
  body : String
  replayed : Bool
deriving DecidableEq, Repr

/-- One complete, uninterleaved pass of the middleware for a request with
a validated key: replay on a SELECT hit without running the handler;
otherwise run the handler and store its response unless it is a 5xx.
Returns (new store, response, whether the handler executed). -/
def idem_process (store : IdemStore) (key : String) (user_id : Option String)
    (endpoint : String) (handler : Nat × String) (now : Int) :
    IdemStore × IdemResponse × Bool :=
  match idem_select store key user_id endpoint now with
  | some (st, b) => (store, { status := st, body := b, replayed := true }, false)
  | none =>
      let store2 :=
        if handler.1 < 500 then
          idem_upsert store key user_id endpoint handler.1 handler.2 now
        else
          store
      (store2, { status := handler.1, body := handler.2, replayed := false }, true)

/-- A row of the store matching a (key, endpoint, caller) tuple. -/
def idem_stored_for_tuple (store : IdemStore) (key : String)
    (user_id : Option String) (endpoint : String) (r : IdemRecord) : Prop :=
  store key = some r ∧ r.user_id = user_id ∧ r.endpoint = endpoint

/-- The empty idempotency_keys table. -/
def idem_empty : IdemStore := fun _ => none

/-- Counterexample trace for the replay claim: request 1 on tuple
(key k, caller u1, endpoint A) stores its response; request 2 reuses the
same key on endpoint B, misses the tuple-filtered SELECT, runs its
handler, and its ON CONFLICT (key) DO UPDATE overwrites the stored
response while keeping the row's original endpoint. -/
def cex_store1 : IdemStore :=
  (idem_process idem_empty "abcdef12" (some "u1") "POST:/api/a" (200, "R1") 0).1

/-- Second step of the counterexample trace (same key, endpoint B). -/
def cex_store2 : IdemStore :=
  (idem_process cex_store1 "abcdef12" (some "u1") "POST:/api/b" (201, "R2") 10).1

/-- Third step: a replay of the original tuple within the 24-hour window. -/
def cex_step3 : IdemStore × IdemResponse × Bool :=
  idem_process cex_store2 "abcdef12" (some "u1") "POST:/api/a" (200, "R1") 20

/-! ## Refresh endpoint (src/routes/profile.js POST /refresh, lines 579-643) -/

/-- One row of refresh_tokens (schema.sql). -/
structure RefreshTokenRow where
  user_id : String
  token_hash : Nat
  expires_at : Int
  is_session_only : Bool
  created_at : Int
  last_used_at : Option Int
  user_agent : Option String
  ip_address : Option String
deriving DecidableEq, Repr

/-- The user columns the refresh handler joins in. -/
structure UserRow where
  id : String
  username : String
  email : String
  is_admin : Bool
  is_verified : Bool
  deleted_at : Option Int
deriving DecidableEq, Repr

/-- hash_token (src/utils/crypto.js): the SHA-256 hex digest of a raw
token, modelled by the deterministic digest. -/
def hash_token (token : List Char) : Nat := charsHash token

/-- A cookie mutation the handler performs on the response. -/
inductive CookieOp where
  | set (name : String) (value : List Char)
  | clear (name : String)
deriving DecidableEq, Repr

/-- The observable outcome of POST /refresh: the refresh_tokens table
after the request, the HTTP status, and the cookie operations. -/
structure RefreshResult where
  refresh_tokens : List RefreshTokenRow
  status : Nat
  cookies : List CookieOp
deriving DecidableEq, Repr

/-- The SELECT ... JOIN users of the refresh handler: the row with this
hash that is not yet expired, joined to its owning user. -/
def refresh_lookup (db : List RefreshTokenRow) (users : List UserRow)
    (h : Nat) (now : Int) : Option (RefreshTokenRow × UserRow) :=
  match db.find? (fun r => decide (r.token_hash = h) && decide (now < r.expires_at)) with
  | some r =>
      match users.find? (fun u => decide (u.id = r.user_id)) with
      | some u => some (r, u)
      | none => none
  | none => none

/-- UPDATE refresh_tokens SET last_used_at = NOW() WHERE token_hash = h. -/
def touch_last_used (db : List RefreshTokenRow) (h : Nat) (now : Int) :
    List RefreshTokenRow :=
  db.map (fun r => if r.token_hash = h then { r with last_used_at := some now } else r)

/-- POST /refresh: reject a missing cookie; reject (clearing both cookies)
an unknown or expired hash; otherwise touch last_used_at on the matching
row, mint a new access token for the joined user, and set only the
access_token cookie.  No refresh token is created and no refresh cookie
is set. -/
def post_refresh (users : List UserRow) (db : List RefreshTokenRow)
    (cookie_rt : Option (List Char)) (now_ms : Nat) : RefreshResult :=
  match cookie_rt with
  | none => { refresh_tokens := db, status := 401, cookies := [] }
  | some tok =>
      let h := hash_token tok
      let now_s : Int := (now_ms : Int) / 1000
      match refresh_lookup db users h now_s with
      | none =>
          { refresh_tokens := db, status := 401,
            cookies := [CookieOp.clear "access_token", CookieOp.clear "refresh_token"] }
      | some (_, u) =>
          let db2 := touch_last_used db h now_s
          match create_access_token
              { id := u.id, username := u.username,
                is_admin := u.is_admin, is_verified := u.is_verified } {} now_ms with
          | some access =>
              { refresh_tokens := db2, status := 200,
                cookies := [CookieOp.set "access_token" access] }
          | none => { refresh_tokens := db2, status := 500, cookies := [] }

/-- Concrete fixtures for the refresh frame witness. -/
def refresh_tok_w : List Char := ['t', 'o', 'k']

/-- A user owning the witness refresh token. -/
def refresh_user_w : UserRow :=
  { id := "u1", username := "alice", email := "alice@example.com",
    is_admin := false, is_verified := true, deleted_at := none }

/-- The witness refresh_tokens row, hashed from the witness token. -/
def refresh_row_w : RefreshTokenRow :=
  { user_id := "u1", token_hash := hash_token refresh_tok_w, expires_at := 9999,
    is_session_only := false, created_at := 0, last_used_at := none,
    user_agent := none, ip_address := none }

/-! ## Login endpoint (src/routes/profile.js POST /login, lines 420-542)

The password verifier is the out-of-scope collaborator
verify_password(plain, hash, salt); it is passed in as a function, and
every invocation the handler makes is recorded so that the dummy
verification on the unknown-username path is observable.  Cookie/token
side effects of the success branches are outside this model. -/

/-- The user columns the login handler selects. -/
structure LoginUserRow where
  id : String
  username : String
  email : String
  password_hash : String
  password_salt : String
  is_admin : Bool
  is_verified : Bool
  deleted_at : Option Int
  deleted_by_admin : Bool
deriving DecidableEq, Repr

/-- The observable response body fields of the login handler. -/
structure LoginHttpResponse where
  status : Nat
  error : Option String
  message : Option String
  code : Option String
  retry_after : Option Int
  user_id : Option String
deriving DecidableEq, Repr

/-- Result of check_user_login_block. -/
inductive BlockStatus where
  | notBlocked
  | temporary (untilT : Int)
  | permanentB
deriving DecidableEq, Repr

/-- check_user_login_block (src/middleware/rate-limit.js lines 352-380):
no row means not blocked; block_count at least 4 with a NULL
blocked_until means permanent; a future blocked_until means temporary. -/
def check_user_login_block (rec : Option LoginUserRecord) (now : Int) : BlockStatus :=
  match rec with
  | none => BlockStatus.notBlocked
  | some r =>
      if 4 ≤ r.block_count ∧ r.blocked_until = none then BlockStatus.permanentB
      else
        match r.blocked_until with
        | some t => if now < t then BlockStatus.temporary t else BlockStatus.notBlocked
        | none => BlockStatus.notBlocked

/-- The dummy credential verified on unknown-username attempts. -/
def dummy_hash : String := "dummy_hash_to_prevent_timing_attack"

/-- The dummy salt paired with dummy_hash. -/
def dummy_salt : String := "dummy_salt"

/-- SQL LOWER on a string. -/
def str_lower (s : String) : String := String.mk (s.data.map Char.toLower)

/-- The SELECT by LOWER(username) = LOWER($1) OR LOWER(email) = LOWER($1). -/
def find_user_ci (users : List LoginUserRow) (login : String) : Option LoginUserRow :=
  users.find? (fun u =>
    str_lower u.username == str_lower login || str_lower u.email == str_lower login)

/-- The observable outcome of POST /login: the response, the per-user
limiter record after the request, and the verifier invocations made. -/
structure LoginOutcome where
  resp : LoginHttpResponse
  rate_rec : Option LoginUserRecord
  vp_calls : List (String × String × String)
deriving DecidableEq, Repr

/-- POST /login with the per-user limiter state threaded explicitly.
Branches in source order: missing fields; unknown user (dummy
verification, then 401 Invalid credentials); the user's block status;
password verification; on failure record_login_failure and either the
block response or 401 Invalid credentials; on success reset the failure
counter and answer per the soft-delete state. -/
def post_login (users : List LoginUserRow) (rate_rec : Option LoginUserRecord)
    (vp : String → String → String → Bool) (login pw : String) (now : Int) :
    LoginOutcome :=
  if login = "" ∨ pw = "" then
    { resp := { status := 400, error := some "Username and password required",
                message := none, code := none, retry_after := none, user_id := none },
      rate_rec := rate_rec, vp_calls := [] }
  else
    match find_user_ci users login with
    | none =>
        { resp := { status := 401, error := some "Invalid credentials",
                    message := none, code := none, retry_after := none, user_id := none },
          rate_rec := rate_rec,
          vp_calls := [(pw, dummy_hash, dummy_salt)] }
    | some u =>
        match check_user_login_block rate_rec now with
        | BlockStatus.permanentB =>
            { resp := { status := 403, error := some "Account locked",
                        message := some "Too many failed login attempts. Please contact support.",
                        code := none, retry_after := none, user_id := none },
              rate_rec := rate_rec, vp_calls := [] }
        | BlockStatus.temporary t =>
            { resp := { status := 429, error := some "Account temporarily locked",
                        message := none, code := none, retry_after := some (t - now),
                        user_id := none },
              rate_rec := rate_rec, vp_calls := [] }
        | BlockStatus.notBlocked =>
            if vp pw u.password_hash u.password_salt then
              let reset : Option LoginUserRecord :=
                match rate_rec with
                | some r => some { r with consecutive_failures := 0, last_failure_at := none }
                | none => none
              if u.deleted_at.isSome ∧ ¬u.deleted_by_admin then
                { resp := { status := 200, error := none,
                            message := some "Account is deactivated",
                            code := some "ACCOUNT_DELETED", retry_after := none,
                            user_id := some u.id },
                  rate_rec := reset,
                  vp_calls := [(pw, u.password_hash, u.password_salt)] }
              else if u.deleted_at.isSome ∧ u.deleted_by_admin then
                { resp := { status := 403, error := some "Account has been deleted",
                            message := none, code := none, retry_after := none,
                            user_id := none },
                  rate_rec := reset,
                  vp_calls := [(pw, u.password_hash, u.password_salt)] }
              else
                { resp := { status := 200, error := none,
                            message := some "Login successful",
                            code := none, retry_after := none, user_id := some u.id },
                  rate_rec := reset,
                  vp_calls := [(pw, u.password_hash, u.password_salt)] }
            else
              match record_login_failure rate_rec now with
              | (rec2, FailureOutcome.not_blocked) =>
                  { resp := { status := 401, error := some "Invalid credentials",
                              message := none, code := none, retry_after := none,
                              user_id := none },
                    rate_rec := some rec2,
                    vp_calls := [(pw, u.password_hash, u.password_salt)] }
              | (rec2, FailureOutcome.blocked_temporary d) =>
                  { resp := { status := 429, error := some "Account temporarily locked",
                              message := some "Too many failed login attempts",
                              code := none, retry_after := some (d : Int),
                              user_id := none },
                    rate_rec := some rec2,
                    vp_calls := [(pw, u.password_hash, u.password_salt)] }
              | (rec2, FailureOutcome.blocked_permanent) =>
                  { resp := { status := 429, error := some "Account temporarily locked",
                              message := some "Too many failed login attempts",
                              code := none, retry_after := none, user_id := none },
                    rate_rec := some rec2,
                    vp_calls := [(pw, u.password_hash, u.password_salt)] }

/-- A concrete user fixture for the enumeration-resistance witness. -/
def login_user_w : LoginUserRow :=
  { id := "u1", username := "alice", email := "alice@example.com",
    password_hash := "H", password_salt := "S",
    is_admin := false, is_verified := true,
    deleted_at := none, deleted_by_admin := false }

end ToDoable

namespace ToDoable

/-! ## Theorems for claims C3, C4, C5 -/

/-- Claim C3: the shared helper get_block_duration returns ladder[n] when
n < length(ladder) and permanent (none) when n ≥ length(ladder), for both
the registration ladder [3600, 86400, 604800] and the login-per-user
ladder [300, 900, 1800]. -/
theorem get_block_duration_ladder (n : Nat) (ladder : List Nat)
    (hladder : ladder = registration_block_escalation ∨
      ladder = login_user_block_escalation) :
    (∀ h : n < ladder.length, get_block_duration n ladder = some (ladder.get ⟨n, h⟩)) ∧
    (ladder.length ≤ n → get_block_duration n ladder = none) := by
  constructor
  · intro h
    simp [get_block_duration, Nat.not_le_of_lt h]
  · intro h
    simp [get_block_duration, h]

/-- Witness for C3 on the concrete ladders: index 1 of the registration
ladder is one day, and index 5 of the login-user ladder is permanent. -/
theorem get_block_duration_ladder_witness :
    get_block_duration 1 registration_block_escalation = some 86400 ∧
    get_block_duration 5 login_user_block_escalation = none := by
  constructor
  · have h := (get_block_duration_ladder 1 registration_block_escalation (Or.inl rfl)).1
      (by decide)
    simpa [registration_block_escalation] using h
  · exact (get_block_duration_ladder 5 login_user_block_escalation (Or.inr rfl)).2
      (by decide)

/-- Claim C4: tokens ≤ 5 is an invariant of the login token bucket: the
initial insert sets 5, the refill is capped by LEAST at the bucket size 5
for every elapsed time, and consuming a token from a record satisfying the
invariant preserves it. -/
theorem token_bucket_cap (t e : ℚ) (ht : t ≤ login_ip_bucket_size) :
    bucket_initial_tokens ≤ 5 ∧
    bucket_refill t e ≤ 5 ∧
    bucket_consume t ≤ 5 := by
  refine ⟨le_refl _, ?_, ?_⟩
  · have h1 : bucket_refill t e ≤ login_ip_bucket_size := min_le_left _ _
    simpa [login_ip_bucket_size] using h1
  · have h1 : bucket_consume t ≤ t := by
      simpa [bucket_consume] using sub_le_self t (by norm_num : (0:ℚ) ≤ 1)
    have h2 : t ≤ 5 := by simpa [login_ip_bucket_size] using ht
    exact le_trans h1 h2

/-- Witness for C4 at a full bucket and a two-minute elapsed time. -/
theorem token_bucket_cap_witness :
    (5 : ℚ) ≤ login_ip_bucket_size ∧
    bucket_initial_tokens ≤ 5 ∧ bucket_refill 5 120 ≤ 5 ∧ bucket_consume 5 ≤ 5 := by
  refine ⟨by norm_num [login_ip_bucket_size], ?_⟩
  exact token_bucket_cap 5 120 (by norm_num [login_ip_bucket_size])

/-- Claim C5: recording a login failure whose gap since the previous
failure exceeds 30 minutes resets consecutive_failures to 1 rather than
incrementing, a failure within 30 minutes increments by 1, and
last_failure_at becomes the current time in both cases. -/
theorem record_failure_decay (r : LoginUserRecord) (t now : Int)
    (hlast : r.last_failure_at = some t) :
    (decay_window_seconds < now - t →
      record_failure_upsert (some r) now =
        { r with consecutive_failures := 1, last_failure_at := some now }) ∧
    (now - t ≤ decay_window_seconds →
      record_failure_upsert (some r) now =
        { r with
          consecutive_failures := r.consecutive_failures + 1,
          last_failure_at := some now }) := by
  constructor
  · intro hgap
    have hc : decay_elapsed r.last_failure_at now = true := by
      simp [decay_elapsed, hlast]
      omega
    simp [record_failure_upsert, hc]
  · intro hgap
    have hc : decay_elapsed r.last_failure_at now = false := by
      simp [decay_elapsed, hlast]
      omega
    simp [record_failure_upsert, hc]

/-- Witness for C5: with a previous failure at t = 0 and 3 consecutive
failures, a failure at 31 minutes resets to 1 while a failure at 29
minutes increments to 4; both stamp last_failure_at. -/
theorem record_failure_decay_witness :
    record_failure_upsert
        (some { consecutive_failures := 3, last_failure_at := some 0,
                blocked_until := none, block_count := 0 }) 1860 =
      { consecutive_failures := 1, last_failure_at := some 1860,
        blocked_until := none, block_count := 0 } ∧
    record_failure_upsert
        (some { consecutive_failures := 3, last_failure_at := some 0,
                blocked_until := none, block_count := 0 }) 1740 =
      { consecutive_failures := 4, last_failure_at := some 1740,
        blocked_until := none, block_count := 0 } := by
  constructor
  · exact (record_failure_decay
      { consecutive_failures := 3, last_failure_at := some 0,
        blocked_until := none, block_count := 0 } 0 1860 rfl).1 (by decide)
  · exact (record_failure_decay
      { consecutive_failures := 3, last_failure_at := some 0,
        blocked_until := none, block_count := 0 } 0 1740 rfl).2 (by decide)

/-! ## Serialization round-trip lemmas -/

theorem decNat_encNat (n : Nat) (rest : List Char) :
    decNat (encNat n ++ rest) = some (n, rest) := by
  induction n with
  | zero => simp [encNat, decNat]
  | succ k ih =>
      have h1 : ('1' : Char) ≠ 'g' := by decide
      have h2 : encNat (k + 1) ++ rest = '1' :: (encNat k ++ rest) := by
        simp [encNat, List.replicate_succ]
      rw [h2]
      rw [decNat.eq_def]
      simp [h1, ih]

theorem decCharsF_encNat (f m : Nat) (tail : List Char) :
    decCharsF (f + 1) (encNat m ++ tail) =
      match decCharsF f tail with
      | some (cs, r2) => some (Char.ofNat m :: cs, r2)
      | none => none := by
  have hdec : decNat (encNat m ++ tail) = some (m, tail) := decNat_encNat m tail
  cases m with
  | zero =>
      have hg : ('g' : Char) ≠ 'e' := by decide
      have h0 : encNat 0 ++ tail = 'g' :: tail := by simp [encNat]
      rw [h0] at hdec ⊢
      simp [decCharsF, hg, hdec]
  | succ k =>
      have h1e : ('1' : Char) ≠ 'e' := by decide
      have h1 : encNat (k + 1) ++ tail = '1' :: (List.replicate k '1' ++ 'g' :: tail) := by
        simp [encNat, List.replicate_succ]
      rw [h1] at hdec ⊢
      simp [decCharsF, h1e, hdec]

theorem decCharsF_encChars (cs : List Char) : ∀ (f : Nat) (rest : List Char),
    cs.length < f → decCharsF f (encChars cs ++ rest) = some (cs, rest) := by
  induction cs with
  | nil =>
      intro f rest h
      cases f with
      | zero => omega
      | succ f0 => simp [encChars, decCharsF]
  | cons c cs ih =>
      intro f rest h
      cases f with
      | zero => omega
      | succ f0 =>
          have hsplit : encChars (c :: cs) ++ rest = encNat c.toNat ++ (encChars cs ++ rest) := by
            simp [encChars]
          rw [hsplit, decCharsF_encNat]
          rw [ih f0 rest (by simpa using Nat.lt_of_succ_lt_succ h)]
          simp [Char.ofNat_toNat]

theorem encChars_length_ge (cs : List Char) : cs.length < (encChars cs).length := by
  induction cs with
  | nil => simp [encChars]
  | cons c cs ih => simp [encChars, encNat] at *; omega

theorem decChars_encChars (cs rest : List Char) :
    decChars (encChars cs ++ rest) = some (cs, rest) := by
  apply decCharsF_encChars
  have h := encChars_length_ge cs
  simp [List.length_append]
  omega

theorem decStr_encStr (s : String) (rest : List Char) :
    decStr (encStr s ++ rest) = some (s, rest) := by
  obtain ⟨d⟩ := s
  simp [decStr, encStr, decChars_encChars]

theorem decBool_encBool (b : Bool) (rest : List Char) :
    decBool (encBool b ++ rest) = some (b, rest) := by
  have h1 : ('f' : Char) ≠ 't' := by decide
  cases b <;> simp [encBool, decBool, h1]

theorem decOptWith_encOptWith {α : Type} (dec : List Char → Option (α × List Char))
    (enc : α → List Char)
    (hcomp : ∀ (a : α) (rest : List Char), dec (enc a ++ rest) = some (a, rest))
    (o : Option α) (rest : List Char) :
    decOptWith dec (encOptWith enc o ++ rest) = some (o, rest) := by
  have h1 : ('s' : Char) ≠ 'n' := by decide
  cases o <;> simp [encOptWith, decOptWith, h1, hcomp]

theorem decOptNat_encOptNat_nil (o : Option Nat) :
    decOptWith decNat (encOptWith encNat o) = some (o, []) := by
  have h := decOptWith_encOptWith decNat encNat decNat_encNat o []
  simpa using h

set_option maxHeartbeats 2000000 in
theorem decPayload_encPayload (p : JwtPayload) : decPayload (encPayload p) = some p := by
  obtain ⟨sub, username, is_admin, is_verified, type,
    is_impersonation, admin_id, session_only, iat, exp⟩ := p
  simp [encPayload, decPayload, List.append_assoc,
    decStr_encStr,
    decOptWith_encOptWith decStr encStr decStr_encStr,
    decOptWith_encOptWith decBool encBool decBool_encBool,
    decOptWith_encOptWith decNat encNat decNat_encNat,
    decOptNat_encOptNat_nil]

/-! ## Dot-freeness of the coded segments and behaviour of split -/

theorem dot_not_mem_encNat (n : Nat) : '.' ∉ encNat n := by
  intro h
  simp only [encNat] at h
  rcases List.mem_append.mp h with h | h
  · exact absurd (List.eq_of_mem_replicate h) (by decide)
  · exact absurd (List.mem_singleton.mp h) (by decide)

theorem dot_not_mem_encChars (cs : List Char) : '.' ∉ encChars cs := by
  induction cs with
  | nil =>
      intro h
      simp only [encChars] at h
      exact absurd (List.mem_singleton.mp h) (by decide)
  | cons c cs ih =>
      intro h
      simp only [encChars] at h
      rcases List.mem_append.mp h with h | h
      · exact dot_not_mem_encNat _ h
      · exact ih h

theorem dot_not_mem_encBool (b : Bool) : '.' ∉ encBool b := by
  cases b <;> simp [encBool]

theorem dot_not_mem_encOptWith {α : Type} (enc : α → List Char)
    (h : ∀ a, '.' ∉ enc a) (o : Option α) : '.' ∉ encOptWith enc o := by
  cases o with
  | none =>
      intro hm
      simp only [encOptWith] at hm
      exact absurd (List.mem_singleton.mp hm) (by decide)
  | some a =>
      intro hm
      simp only [encOptWith] at hm
      rcases List.mem_cons.mp hm with hm | hm
      · exact absurd hm (by decide)
      · exact h a hm

theorem dot_not_mem_encStr (s : String) : '.' ∉ encStr s :=
  dot_not_mem_encChars s.data

theorem dot_not_mem_encPayload (p : JwtPayload) : '.' ∉ encPayload p := by
  intro h
  simp only [encPayload, List.append_assoc, List.mem_append] at h
  rcases h with h | h | h | h | h | h | h | h | h | h
  · exact dot_not_mem_encStr _ h
  · exact dot_not_mem_encOptWith encStr dot_not_mem_encStr _ h
  · exact dot_not_mem_encOptWith encBool dot_not_mem_encBool _ h
  · exact dot_not_mem_encOptWith encBool dot_not_mem_encBool _ h
  · exact dot_not_mem_encStr _ h
  · exact dot_not_mem_encOptWith encBool dot_not_mem_encBool _ h
  · exact dot_not_mem_encOptWith encStr dot_not_mem_encStr _ h
  · exact dot_not_mem_encOptWith encBool dot_not_mem_encBool _ h
  · exact dot_not_mem_encOptWith encNat dot_not_mem_encNat _ h
  · exact dot_not_mem_encOptWith encNat dot_not_mem_encNat _ h

theorem dot_not_mem_create_signature (data : List Char) (secret : String) :
    '.' ∉ create_signature data secret :=
  dot_not_mem_encNat _

theorem dot_not_mem_header : '.' ∉ jwt_header_chars := by decide

theorem splitDots_no_dot (a : List Char) (ha : '.' ∉ a) : splitDots a = [a] := by
  induction a with
  | nil => simp [splitDots]
  | cons c t ih =>
      have hc : ¬(c = '.') := fun h => ha (h ▸ List.mem_cons_self c t)
      have ht : '.' ∉ t := fun h => ha (List.mem_cons_of_mem c h)
      simp [splitDots, hc, ih ht]

theorem splitDots_append (a rest : List Char) (ha : '.' ∉ a) :
    splitDots (a ++ '.' :: rest) = a :: splitDots rest := by
  induction a with
  | nil => simp [splitDots]
  | cons c t ih =>
      have hc : ¬(c = '.') := fun h => ha (h ▸ List.mem_cons_self c t)
      have ht : '.' ∉ t := fun h => ha (List.mem_cons_of_mem c h)
      simp [splitDots, hc, ih ht]

theorem splitDots_three (hdr pay sig : List Char)
    (h1 : '.' ∉ hdr) (h2 : '.' ∉ pay) (h3 : '.' ∉ sig) :
    splitDots ((hdr ++ '.' :: pay) ++ '.' :: sig) = [hdr, pay, sig] := by
  rw [List.append_assoc]
  have hmid : '.' :: pay ++ '.' :: sig = '.' :: (pay ++ '.' :: sig) := by simp
  rw [hmid, splitDots_append hdr _ h1, splitDots_append pay _ h2, splitDots_no_dot sig h3]

theorem verify_signature_self (data : List Char) (secret : String) :
    verify_signature data (create_signature data secret) secret = true := by
  simp [verify_signature]

/-- verify_jwt applied to a correctly signed token: splits, passes the
signature check, decodes back to the signed payload, and applies exactly
the exp test of the source. -/
theorem verify_signed_token (p : JwtPayload) (now_ms : Nat) :
    verify_jwt (JsValue.str (signed_token p)) now_ms =
      match p.exp with
      | some e =>
        if e ≠ 0 ∧ e < now_ms / 1000 then VerifyResult.invalid "Token expired"
        else VerifyResult.valid p
      | none => VerifyResult.valid p := by
  have hform : signed_token p =
      (jwt_header_chars ++ '.' :: encPayload p) ++
        '.' :: create_signature (jwt_header_chars ++ '.' :: encPayload p) jwt_config_secret := by
    simp [signed_token]
  have hne : signed_token p ≠ [] := by
    rw [hform]
    simp [jwt_header_chars]
  have hsplit : splitDots (signed_token p) =
      [jwt_header_chars, encPayload p,
        create_signature (jwt_header_chars ++ '.' :: encPayload p) jwt_config_secret] := by
    rw [hform]
    exact splitDots_three _ _ _ dot_not_mem_header (dot_not_mem_encPayload p)
      (dot_not_mem_create_signature _ _)
  simp [verify_jwt, hne, hsplit, verify_signature_self, decPayload_encPayload]

/-! ## Theorems for claims C6, C7, C10 -/

/-- Claim C6: for every user identity and any options, verifying an access
token immediately after issuing it succeeds and returns a payload carrying
every original claim unchanged: sub, username, is_admin, is_verified,
type, and the impersonation fields exactly when present. -/
theorem access_token_round_trip (user : UserIdentity) (options : AccessTokenOptions)
    (now_ms : Nat) :
    ∃ tok p, create_access_token user options now_ms = some tok ∧
      verify_jwt (JsValue.str tok) now_ms = VerifyResult.valid p ∧
      p.sub = user.id ∧
      p.username = some user.username ∧
      p.is_admin = some user.is_admin ∧
      p.is_verified = some user.is_verified ∧
      p.type = "access" ∧
      p.is_impersonation = (if options.is_impersonation then some true else none) ∧
      p.admin_id = (if options.is_impersonation then options.admin_id else none) := by
  refine ⟨signed_token { access_payload user options with
      iat := some (now_ms / 1000), exp := some ((now_ms + 900000) / 1000) },
    { access_payload user options with
      iat := some (now_ms / 1000), exp := some ((now_ms + 900000) / 1000) },
    ?_, ?_, rfl, rfl, rfl, rfl, rfl, rfl, rfl⟩
  · simp [create_access_token, create_jwt, parse_duration, jwt_access_expiry, signed_token]
  · rw [verify_signed_token]
    have hle : now_ms / 1000 ≤ (now_ms + 900000) / 1000 :=
      Nat.div_le_div_right (Nat.le_add_right _ _)
    simp [hle, Nat.not_lt_of_le hle]

/-- Claim C7: verify_jwt is total on arbitrary input and always returns a
tagged result drawn from a closed set of reasons; moreover a falsy or
non-string input is rejected as required, a wrong dot-segment count as
malformed, a failed (timing-safely compared) signature as an invalid
signature, and a present truthy exp in the past as expired. -/
theorem verify_jwt_total_tagged (v : JsValue) (now_ms : Nat) :
    ((∃ p, verify_jwt v now_ms = VerifyResult.valid p) ∨
      verify_jwt v now_ms = VerifyResult.invalid "Token is required" ∨
      verify_jwt v now_ms = VerifyResult.invalid "Invalid token format" ∨
      verify_jwt v now_ms = VerifyResult.invalid "Invalid signature" ∨
      verify_jwt v now_ms = VerifyResult.invalid "Token expired" ∨
      verify_jwt v now_ms = VerifyResult.invalid "Invalid token") ∧
    ((v = JsValue.jsNull ∨ v = JsValue.jsUndefined ∨ v = JsValue.nonString ∨
        v = JsValue.str []) → verify_jwt v now_ms = VerifyResult.invalid "Token is required") ∧
    (∀ s, v = JsValue.str s → s ≠ [] → (splitDots s).length ≠ 3 →
      verify_jwt v now_ms = VerifyResult.invalid "Invalid token format") ∧
    (∀ s hdr pay sig, v = JsValue.str s → s ≠ [] → splitDots s = [hdr, pay, sig] →
      verify_signature (hdr ++ '.' :: pay) sig jwt_config_secret = false →
      verify_jwt v now_ms = VerifyResult.invalid "Invalid signature") ∧
    (∀ s hdr pay sig p e, v = JsValue.str s → s ≠ [] → splitDots s = [hdr, pay, sig] →
      verify_signature (hdr ++ '.' :: pay) sig jwt_config_secret = true →
      decPayload pay = some p → p.exp = some e → e ≠ 0 → e < now_ms / 1000 →
      verify_jwt v now_ms = VerifyResult.invalid "Token expired") := by
  refine ⟨?_, ?_, ?_, ?_, ?_⟩
  · cases v with
    | str s =>
        by_cases hs : s = []
        · right; left; simp [verify_jwt, hs]
        · match hsp : splitDots s with
          | [hdr, pay, sig] =>
              by_cases hsig : verify_signature (hdr ++ '.' :: pay) sig jwt_config_secret = true
              · match hdec : decPayload pay with
                | some p =>
                    match hexp : p.exp with
                    | some e =>
                        by_cases hcond : e ≠ 0 ∧ e < now_ms / 1000
                        · right; right; right; right; left
                          simp [verify_jwt, hs, hsp, hsig, hdec, hexp, hcond]
                        · left
                          exact ⟨p, by simp [verify_jwt, hs, hsp, hsig, hdec, hexp, hcond]⟩
                    | none =>
                        left
                        exact ⟨p, by simp [verify_jwt, hs, hsp, hsig, hdec, hexp]⟩
                | none =>
                    right; right; right; right; right
                    simp [verify_jwt, hs, hsp, hsig, hdec]
              · right; right; right; left
                simp [verify_jwt, hs, hsp, hsig]
          | [] => right; right; left; simp [verify_jwt, hs, hsp]
          | [a] => right; right; left; simp [verify_jwt, hs, hsp]
          | [a, b] => right; right; left; simp [verify_jwt, hs, hsp]
          | a :: b :: c :: d :: t => right; right; left; simp [verify_jwt, hs, hsp]
    | jsNull => right; left; simp [verify_jwt]
    | jsUndefined => right; left; simp [verify_jwt]
    | nonString => right; left; simp [verify_jwt]
  · intro h
    rcases h with h | h | h | h <;> subst h <;> simp [verify_jwt]
  · intro s hv hs hlen
    subst hv
    match hsp : splitDots s with
    | [hdr, pay, sig] => rw [hsp] at hlen; simp at hlen
    | [] => simp [verify_jwt, hs, hsp]
    | [a] => simp [verify_jwt, hs, hsp]
    | [a, b] => simp [verify_jwt, hs, hsp]
    | a :: b :: c :: d :: t => simp [verify_jwt, hs, hsp]
  · intro s hdr pay sig hv hs hsp hsig
    subst hv
    simp [verify_jwt, hs, hsp, hsig]
  · intro s hdr pay sig p e hv hs hsp hsig hdec hexp he hlt
    subst hv
    simp [verify_jwt, hs, hsp, hsig, hdec, hexp, he, hlt]

set_option maxRecDepth 8000 in
set_option maxHeartbeats 1000000 in
/-- Witness for C7 across its four rejection branches, at concrete inputs:
a null token, a dot-less string, a three-segment token with a wrong
signature, and a correctly signed token whose exp claim is in the past. -/
theorem verify_jwt_total_tagged_witness :
    verify_jwt JsValue.jsNull 0 = VerifyResult.invalid "Token is required" ∧
    verify_jwt (JsValue.str ['a']) 0 = VerifyResult.invalid "Invalid token format" ∧
    verify_jwt (JsValue.str ['a', '.', 'b', '.', 'c']) 0 =
      VerifyResult.invalid "Invalid signature" ∧
    verify_jwt (JsValue.str (signed_token expired_payload)) 5000 =
      VerifyResult.invalid "Token expired" := by
  refine ⟨?_, ?_, ?_, ?_⟩
  · exact (verify_jwt_total_tagged JsValue.jsNull 0).2.1 (Or.inl rfl)
  · exact (verify_jwt_total_tagged (JsValue.str ['a']) 0).2.2.1 ['a'] rfl
      (by decide) (by decide)
  · exact (verify_jwt_total_tagged (JsValue.str ['a', '.', 'b', '.', 'c']) 0).2.2.2.1
      ['a', '.', 'b', '.', 'c'] ['a'] ['b'] ['c'] rfl (by decide) (by decide) (by decide)
  · exact (verify_jwt_total_tagged (JsValue.str (signed_token expired_payload)) 5000).2.2.2.2
      (signed_token expired_payload) jwt_header_chars (encPayload expired_payload)
      (create_signature (jwt_header_chars ++ '.' :: encPayload expired_payload) jwt_config_secret)
      expired_payload 1 rfl (by decide) (by decide) (by decide) (by decide) (by decide)
      (by decide) (by decide)

/-- Claim C10: a correctly signed token whose payload carries no exp claim
passes verification at every point in time: the expiry check is skipped
entirely and the result is valid with the signed payload. -/
theorem verify_jwt_no_exp (p : JwtPayload) (hexp : p.exp = none) (now_ms : Nat) :
    verify_jwt (JsValue.str (signed_token p)) now_ms = VerifyResult.valid p := by
  rw [verify_signed_token, hexp]

/-- Witness for C10 at a concrete exp-less payload and a far-future time. -/
theorem verify_jwt_no_exp_witness :
    no_exp_payload.exp = none ∧
    verify_jwt (JsValue.str (signed_token no_exp_payload)) 999999999999999 =
      VerifyResult.valid no_exp_payload :=
  ⟨rfl, verify_jwt_no_exp no_exp_payload rfl 999999999999999⟩

/-! ## Theorems for claims C1 and C2 -/

/-- Counterexample for C1 at a concrete sequential trace: request 1 on
tuple (key abcdef12, caller u1, endpoint POST:/api/a) stores (200, R1);
request 2 reuses the same valid key on endpoint POST:/api/b, misses the
tuple-filtered SELECT, runs its handler, and its ON CONFLICT (key) DO
UPDATE overwrites the stored response while keeping the row's original
endpoint; the replay of the original tuple at t = 20 (well inside 24h)
then receives (201, R2) instead of the first stored response (200, R1). -/
theorem idem_replay_counterexample :
    validate_idempotency_key "abcdef12" = some "abcdef12" ∧
    (idem_process idem_empty "abcdef12" (some "u1") "POST:/api/a" (200, "R1") 0).2.1 =
      { status := 200, body := "R1", replayed := false } ∧
    cex_store1 "abcdef12" =
      some { user_id := some "u1", endpoint := "POST:/api/a",
             response_status := 200, response_body := "R1", expires_at := 86400 } ∧
    cex_store2 "abcdef12" =
      some { user_id := some "u1", endpoint := "POST:/api/a",
             response_status := 201, response_body := "R2", expires_at := 86410 } ∧
    cex_step3.2.1 = { status := 201, body := "R2", replayed := true } ∧
    cex_step3.2.1 ≠ { status := 200, body := "R1", replayed := true } := by
  refine ⟨by decide, by decide, by decide, by decide, by decide, by decide⟩

/-- Claim C1 as amended: at most one stored response exists per (key,
endpoint, caller) tuple, and when the key is fresh in the store and no
other request intervenes, a second request with the same tuple within
the 24-hour window replays the first response byte-for-byte (status and
body) without executing the handler and without changing the store. -/
theorem idem_replay_fresh_key (store : IdemStore) (key : String)
    (user_id : Option String) (endpoint : String) (h1 h2 : Nat × String) (t1 t2 : Int)
    (hkey : validate_idempotency_key key = some key)
    (hfresh : store key = none)
    (hok : h1.1 < 500)
    (ht : t1 ≤ t2) (ht24 : t2 < t1 + idem_ttl_seconds) :
    (∀ (s : IdemStore) (r1 r2 : IdemRecord),
      idem_stored_for_tuple s key user_id endpoint r1 →
      idem_stored_for_tuple s key user_id endpoint r2 → r1 = r2) ∧
    (idem_process store key user_id endpoint h1 t1).2.1 =
      { status := h1.1, body := h1.2, replayed := false } ∧
    (idem_process store key user_id endpoint h1 t1).2.2 = true ∧
    (idem_process (idem_process store key user_id endpoint h1 t1).1
        key user_id endpoint h2 t2).2.1 =
      { status := h1.1, body := h1.2, replayed := true } ∧
    (idem_process (idem_process store key user_id endpoint h1 t1).1
        key user_id endpoint h2 t2).2.2 = false ∧
    (idem_process (idem_process store key user_id endpoint h1 t1).1
        key user_id endpoint h2 t2).1 =
      (idem_process store key user_id endpoint h1 t1).1 := by
  have hsel1 : idem_select store key user_id endpoint t1 = none := by
    simp [idem_select, hfresh]
  have hstep1 : idem_process store key user_id endpoint h1 t1 =
      (idem_upsert store key user_id endpoint h1.1 h1.2 t1,
       { status := h1.1, body := h1.2, replayed := false }, true) := by
    simp [idem_process, hsel1, hok]
  have hrow : idem_upsert store key user_id endpoint h1.1 h1.2 t1 key =
      some { user_id := user_id, endpoint := endpoint,
             response_status := h1.1, response_body := h1.2,
             expires_at := t1 + idem_ttl_seconds } := by
    simp [idem_upsert, hfresh]
  have hsel2 : idem_select (idem_upsert store key user_id endpoint h1.1 h1.2 t1)
      key user_id endpoint t2 = some (h1.1, h1.2) := by
    simp [idem_select, hrow, ht24]
  refine ⟨?_, ?_, ?_, ?_, ?_, ?_⟩
  · intro s r1 r2 hr1 hr2
    have := hr1.1.symm.trans hr2.1
    exact Option.some_injective _ this
  · rw [hstep1]
  · rw [hstep1]
  · rw [hstep1]
    simp [idem_process, hsel2]
  · rw [hstep1]
    simp [idem_process, hsel2]
  · rw [hstep1]
    simp [idem_process, hsel2]

/-- Witness for the amended C1 on a concrete fresh key and tuple. -/
theorem idem_replay_fresh_key_witness :
    validate_idempotency_key "abcdef12" = some "abcdef12" ∧
    (idem_process (idem_process idem_empty "abcdef12" (some "u") "POST:/api/items"
        (201, "B1") 0).1 "abcdef12" (some "u") "POST:/api/items" (202, "B2") 100).2.1 =
      { status := 201, body := "B1", replayed := true } ∧
    (idem_process (idem_process idem_empty "abcdef12" (some "u") "POST:/api/items"
        (201, "B1") 0).1 "abcdef12" (some "u") "POST:/api/items" (202, "B2") 100).2.2 =
      false := by
  have h := idem_replay_fresh_key idem_empty "abcdef12" (some "u") "POST:/api/items"
    (201, "B1") (202, "B2") 0 100 (by decide) rfl (by decide) (by decide) (by decide)
  exact ⟨by decide, h.2.2.2.1, h.2.2.2.2.1⟩

/-- Claim C2 evaluated at its failing input: two requests with the same
valid key and the same tuple race, both running the middleware SELECT
before either has inserted.  Both selects miss, so both handlers execute;
and the loser's insert is not rejected by the store: the ON CONFLICT
(key) DO UPDATE upsert succeeds and overwrites the winner's stored
response with the loser's. -/
theorem idem_race_both_execute_and_overwrite :
    validate_idempotency_key "racekey-12" = some "racekey-12" ∧
    idem_select idem_empty "racekey-12" (some "u1") "POST:/api/x" 0 = none ∧
    idem_select idem_empty "racekey-12" (some "u1") "POST:/api/x" 0 = none ∧
    (idem_upsert idem_empty "racekey-12" (some "u1") "POST:/api/x" 200 "RA" 0)
        "racekey-12" =
      some { user_id := some "u1", endpoint := "POST:/api/x",
             response_status := 200, response_body := "RA", expires_at := 86400 } ∧
    (idem_upsert (idem_upsert idem_empty "racekey-12" (some "u1") "POST:/api/x" 200 "RA" 0)
        "racekey-12" (some "u1") "POST:/api/x" 200 "RB" 0) "racekey-12" =
      some { user_id := some "u1", endpoint := "POST:/api/x",
             response_status := 200, response_body := "RB", expires_at := 86400 } := by
  refine ⟨by decide, by decide, by decide, by decide, by decide⟩

/-! ## Theorems for claims C8 and C9 -/

/-- create_access_token always succeeds and emits the signed token whose
payload is the access payload stamped with iat and a 15-minute exp. -/
theorem create_access_token_eq (user : UserIdentity) (options : AccessTokenOptions)
    (now_ms : Nat) :
    create_access_token user options now_ms =
      some (signed_token { access_payload user options with
        iat := some (now_ms / 1000), exp := some ((now_ms + 900000) / 1000) }) := by
  simp [create_access_token, create_jwt, parse_duration, jwt_access_expiry, signed_token]

/-- Claim C8: on POST /refresh with a valid, unexpired refresh token, a
new access token is issued and set as the only cookie operation, the
matching refresh_tokens row changes only in last_used_at, and no other
row is created, modified or deleted (the table is exactly the pointwise
touch of the old table, preserving length and every non-matching row). -/
theorem post_refresh_frame (users : List UserRow) (db : List RefreshTokenRow)
    (tok : List Char) (now_ms : Nat) (row : RefreshTokenRow) (u : UserRow)
    (hrow : db.find? (fun r => decide (r.token_hash = hash_token tok) &&
      decide (((now_ms : Int) / 1000) < r.expires_at)) = some row)
    (huser : users.find? (fun w => decide (w.id = row.user_id)) = some u) :
    ∃ access,
      create_access_token
        { id := u.id, username := u.username,
          is_admin := u.is_admin, is_verified := u.is_verified } {} now_ms = some access ∧
      post_refresh users db (some tok) now_ms =
        { refresh_tokens := touch_last_used db (hash_token tok) ((now_ms : Int) / 1000),
          status := 200,
          cookies := [CookieOp.set "access_token" access] } ∧
      (post_refresh users db (some tok) now_ms).refresh_tokens.length = db.length ∧
      (∀ r ∈ db, r.token_hash ≠ hash_token tok →
        r ∈ (post_refresh users db (some tok) now_ms).refresh_tokens) ∧
      (∀ r ∈ db, r.token_hash = hash_token tok →
        { r with last_used_at := some ((now_ms : Int) / 1000) } ∈
          (post_refresh users db (some tok) now_ms).refresh_tokens) ∧
      (∀ c ∈ (post_refresh users db (some tok) now_ms).cookies,
        c = CookieOp.set "access_token" access) := by
  have hlook : refresh_lookup db users (hash_token tok) ((now_ms : Int) / 1000) =
      some (row, u) := by
    simp [refresh_lookup, hrow, huser]
  have hpost : post_refresh users db (some tok) now_ms =
      { refresh_tokens := touch_last_used db (hash_token tok) ((now_ms : Int) / 1000),
        status := 200,
        cookies := [CookieOp.set "access_token"
          (signed_token
            { access_payload
                { id := u.id, username := u.username,
                  is_admin := u.is_admin, is_verified := u.is_verified } {} with
              iat := some (now_ms / 1000),
              exp := some ((now_ms + 900000) / 1000) })] } := by
    simp [post_refresh, hlook, create_access_token_eq]
  refine ⟨_, create_access_token_eq _ _ _, hpost, ?_, ?_, ?_, ?_⟩
  · rw [hpost]
    simp [touch_last_used]
  · intro r hr hne
    rw [hpost]
    simp only [touch_last_used]
    exact List.mem_map.mpr ⟨r, hr, by simp [hne]⟩
  · intro r hr heq
    rw [hpost]
    simp only [touch_last_used]
    exact List.mem_map.mpr ⟨r, hr, by simp [heq]⟩
  · intro c hc
    rw [hpost] at hc
    simpa using hc

/-- Witness for C8 on a one-row table and a matching unexpired token. -/
theorem post_refresh_frame_witness :
    (post_refresh [refresh_user_w] [refresh_row_w] (some refresh_tok_w) 5000).status = 200 ∧
    (post_refresh [refresh_user_w] [refresh_row_w] (some refresh_tok_w) 5000).refresh_tokens =
      [{ refresh_row_w with last_used_at := some 5 }] ∧
    (∀ c ∈ (post_refresh [refresh_user_w] [refresh_row_w] (some refresh_tok_w) 5000).cookies,
      ∃ v, c = CookieOp.set "access_token" v) := by
  have h := post_refresh_frame [refresh_user_w] [refresh_row_w] refresh_tok_w 5000
    refresh_row_w refresh_user_w (by decide) (by decide)
  obtain ⟨access, hacc, heq, hlen, hother, hmatch, hcook⟩ := h
  refine ⟨?_, ?_, ?_⟩
  · rw [heq]
  · rw [heq]
    show touch_last_used [refresh_row_w] (hash_token refresh_tok_w)
        (((5000 : Nat) : Int) / 1000) = [{ refresh_row_w with last_used_at := some 5 }]
    decide
  · intro c hc
    exact ⟨access, hcook c hc⟩

/-- Claim C9: an unknown-username login attempt and a wrong-password
attempt against an existing, unblocked user below the blocking threshold
produce identical observable responses, namely 401 with error Invalid
credentials, and the unknown-username path still performs exactly one
password verification, against the dummy credential. -/
theorem login_enumeration_resistance (users : List LoginUserRow)
    (rate_rec : Option LoginUserRecord) (vp : String → String → String → Bool)
    (ghost real pw1 pw2 : String) (now : Int) (u : LoginUserRow)
    (hg0 : ghost ≠ "") (hp0 : pw1 ≠ "") (hr0 : real ≠ "") (hp20 : pw2 ≠ "")
    (hghost : find_user_ci users ghost = none)
    (hreal : find_user_ci users real = some u)
    (hopen : check_user_login_block rate_rec now = BlockStatus.notBlocked)
    (hwrong : vp pw2 u.password_hash u.password_salt = false)
    (hbelow : (record_failure_upsert rate_rec now).consecutive_failures <
      login_user_max_consecutive_failures) :
    (post_login users rate_rec vp ghost pw1 now).resp =
      (post_login users rate_rec vp real pw2 now).resp ∧
    (post_login users rate_rec vp ghost pw1 now).resp =
      { status := 401, error := some "Invalid credentials", message := none,
        code := none, retry_after := none, user_id := none } ∧
    (post_login users rate_rec vp ghost pw1 now).vp_calls =
      [(pw1, dummy_hash, dummy_salt)] := by
  have hfail : record_login_failure rate_rec now =
      (record_failure_upsert rate_rec now, FailureOutcome.not_blocked) := by
    simp [record_login_failure, not_le.mpr hbelow]
  have hghost_eq : post_login users rate_rec vp ghost pw1 now =
      { resp := { status := 401, error := some "Invalid credentials", message := none,
                  code := none, retry_after := none, user_id := none },
        rate_rec := rate_rec, vp_calls := [(pw1, dummy_hash, dummy_salt)] } := by
    simp [post_login, hg0, hp0, hghost]
  have hreal_eq : (post_login users rate_rec vp real pw2 now).resp =
      { status := 401, error := some "Invalid credentials", message := none,
        code := none, retry_after := none, user_id := none } := by
    simp [post_login, hr0, hp20, hreal, hopen, hwrong, hfail]
  refine ⟨?_, ?_, ?_⟩
  · rw [hghost_eq, hreal_eq]
  · rw [hghost_eq]
  · rw [hghost_eq]

/-- Witness for C9: a ghost username against a one-user table, and the
real username with a verifier that rejects the password. -/
theorem login_enumeration_resistance_witness :
    (post_login [login_user_w] none (fun _ _ _ => false) "bob" "pw1234" 0).resp =
      (post_login [login_user_w] none (fun _ _ _ => false) "alice" "pw5678" 0).resp ∧
    (post_login [login_user_w] none (fun _ _ _ => false) "bob" "pw1234" 0).resp =
      { status := 401, error := some "Invalid credentials", message := none,
        code := none, retry_after := none, user_id := none } ∧
    (post_login [login_user_w] none (fun _ _ _ => false) "bob" "pw1234" 0).vp_calls =
      [("pw1234", dummy_hash, dummy_salt)] := by
  exact login_enumeration_resistance [login_user_w] none (fun _ _ _ => false)
    "bob" "alice" "pw1234" "pw5678" 0 login_user_w
    (by decide) (by decide) (by decide) (by decide)
    (by decide) (by decide) rfl rfl (by decide)

end ToDoable
